import Mathlib

/-!
Verification of the rank/cumulative-statistics engine of the tas_to_date
repository (scripts/core/core_functions.py and scripts/core/plot_functions.py)
against its natural-language specification.

Shallow embedding conventions:
- A temperature value is a rational number (`ℚ`); a missing value (NaN in the
  source) is `none` in `Option ℚ`.
- The xarray Dataset is a `Dataset` structure: the year coordinate, the
  historical grid `tas_base` (one row per year, indexed positionally by
  day-of-year, day-of-year label = index + 1), the optional target variable
  `tas`, the optional `rank` variable, and the attrs
  (`region`, `year`, `last_doy`, `cummean`).
- Python exceptions (KeyError / IndexError on missing variables, attributes or
  labels) are modelled by `Option`-valued functions returning `none`.
- `np.argsort` is modelled as a stable sort of the index list by value, with
  NaN (`none`) sorting last, as numpy documents; the tie order among exactly
  equal values is not specified by numpy and is incidental here as well.
-/

/-- Sort key of entry `i` of a column: NaN (`none`) sorts last in `np.argsort`,
so it is mapped to `⊤`. -/
def key (xs : List (Option ℚ)) (i : Nat) : WithTop ℚ :=
  match xs.getD i none with
  | some v => (v : WithTop ℚ)
  | none => ⊤

/-- Index comparison used by the model of `np.argsort` on a value column. -/
def keyRel (xs : List (Option ℚ)) (i j : Nat) : Prop :=
  key xs i ≤ key xs j

instance (xs : List (Option ℚ)) : DecidableRel (keyRel xs) := fun i j =>
  inferInstanceAs (Decidable (key xs i ≤ key xs j))

instance (xs : List (Option ℚ)) : IsTotal Nat (keyRel xs) :=
  ⟨fun _ _ => le_total _ _⟩

instance (xs : List (Option ℚ)) : IsTrans Nat (keyRel xs) :=
  ⟨fun _ _ _ h1 h2 => le_trans h1 h2⟩

/-- Model of `np.argsort` applied to a column of values (possibly NaN):
the indices `0, …, n-1` sorted ascending by value, NaN last. -/
def argsort (xs : List (Option ℚ)) : List Nat :=
  List.insertionSort (keyRel xs) (List.range xs.length)

/-- Index comparison for a column of plain naturals (the inner argsort result). -/
def natRel (p : List Nat) (i j : Nat) : Prop :=
  p.getD i 0 ≤ p.getD j 0

instance (p : List Nat) : DecidableRel (natRel p) := fun i j =>
  inferInstanceAs (Decidable (p.getD i 0 ≤ p.getD j 0))

instance (p : List Nat) : IsTotal Nat (natRel p) :=
  ⟨fun _ _ => le_total _ _⟩

instance (p : List Nat) : IsTrans Nat (natRel p) :=
  ⟨fun _ _ _ h1 h2 => le_trans h1 h2⟩

/-- Model of `np.argsort` applied to a list of naturals (second argsort). -/
def argsortNat (p : List Nat) : List Nat :=
  List.insertionSort (natRel p) (List.range p.length)

/-- Column `j` of a row-major grid (`getD` with a default outside the row). -/
def gridCol (g : List (List α)) (dflt : α) (j : Nat) : List α :=
  g.map (fun row => row.getD j dflt)

/-- `da["year"].size - np.argsort(np.argsort(da, axis=0), axis=0)`
(core_functions.py line 124): the per-column double argsort, inverted so that
the highest value receives rank 1.  Entry `(i, j)` is the rank of year-row `i`
at day-of-year column `j`. -/
def np_rank (ndays : Nat) (g : List (List (Option ℚ))) : List (List Nat) :=
  (List.range g.length).map fun i =>
    (List.range ndays).map fun j =>
      g.length - (argsortNat (argsort (gridCol g none j))).getD i 0

/-- Model of the xarray Dataset handled by core_functions.py.
`years`/`tas_base` are the year coordinate and the historical grid (aligned,
one row per year); `tas` is the target variable added by `add_target_year`;
`rank` is the variable added by `calc_rank`; `region`, `year`, `last_doy`,
`cummean` model the attrs dictionary (`none`/`false` = attribute absent). -/
structure Dataset where
  years : List Int
  tas_base : List (List (Option ℚ))
  tas : Option (List (Option ℚ))
  rank : Option (List (List Nat))
  ndays : Nat
  region : String
  year : Option Int
  last_doy : Option Int
  cummean : Bool
  deriving DecidableEq

/-- The grid actually ranked by `calc_rank` (core_functions.py lines 117-122):
the target series is concatenated as an extra year row iff the target year is
greater than the last entry of the year coordinate
(`year > ds["year"].values[-1]`).  `none` models the KeyError/IndexError when
the `year` attribute, the year coordinate, or (in the appending branch) the
`tas` variable is missing. -/
def rank_input (ds : Dataset) : Option (List (List (Option ℚ))) := do
  let y ← ds.year
  let yl ← ds.years.getLast?
  if yl < y then do
    let t ← ds.tas
    pure (ds.tas_base ++ [t])
  else
    pure ds.tas_base

/-- `calc_rank` (core_functions.py lines 114-126): rank the (possibly
target-extended) grid per day-of-year column and merge the result back into
the dataset.  The `xr.merge` outer-joins the year coordinate, so in the
appending branch the merged dataset gains the target year on its year axis and
a NaN row of `tas_base` for it; attrs are taken from the first argument. -/
def calc_rank (ds : Dataset) : Option Dataset := do
  let y ← ds.year
  let yl ← ds.years.getLast?
  let g ← rank_input ds
  pure { ds with
    years := if yl < y then ds.years ++ [y] else ds.years,
    tas_base := if yl < y then ds.tas_base ++ [List.replicate ds.ndays none]
                else ds.tas_base,
    rank := some (np_rank ds.ndays g) }

/-- The running sum of a series with missing values skipped (treated as 0):
the `skipna=True` (default for floats) semantics of
`ds.cumsum("dayofyear")`, i.e. `np.nancumsum`.  The output has no missing
entries. -/
def cumsumSkipna (acc : ℚ) : List (Option ℚ) → List ℚ
  | [] => []
  | x :: xs => (acc + x.getD 0) :: cumsumSkipna (acc + x.getD 0) xs

/-- One series of `ds.cumsum("dayofyear") / ds["dayofyear"]`
(core_functions.py line 132): the skip-NaN running sum divided elementwise by
the day-of-year label (= index + 1). -/
def calc_cummean_series (xs : List (Option ℚ)) : List (Option ℚ) :=
  (List.range xs.length).map fun d =>
    some ((cumsumSkipna 0 xs).getD d 0 / (d + 1))

/-- `ds["tas"].where(ds["dayofyear"] <= doy)` (core_functions.py line 142):
keep the value where the day-of-year label is at most `doy`, NaN elsewhere. -/
def maskAfter (t : List (Option ℚ)) (doy : Int) : List (Option ℚ) :=
  (List.range t.length).map fun d =>
    if Int.ofNat d + 1 ≤ doy then t.getD d none else none

/-- `set_last_doy` (core_functions.py lines 139-145): copy the dataset, mask
the target past `doy` and record `doy` in the attrs.  There is no range check
on `doy`.  `none` models the KeyError when the `tas` variable is absent.
(The discarded `ds["tas"].astype(np.float)` on line 143 has no effect.) -/
def set_last_doy (ds : Dataset) (doy : Int) : Option Dataset := do
  let t ← ds.tas
  pure { ds with tas := some (maskAfter t doy), last_doy := some doy }

/-- `calc_cummean` (core_functions.py lines 129-136): save the attrs, replace
every series (historical rows and target) by its cumulative mean, re-apply
`set_last_doy` at the saved `last_doy`, restore the attrs and set
`cummean = "True"`. -/
def calc_cummean (ds : Dataset) : Option Dataset := do
  let doy ← ds.last_doy
  let dsum : Dataset := { ds with
    tas_base := ds.tas_base.map calc_cummean_series,
    tas := ds.tas.map calc_cummean_series }
  let dtrunc ← set_last_doy dsum doy
  pure { dtrunc with
    region := ds.region, year := ds.year, last_doy := ds.last_doy,
    cummean := true }

/-- The day-of-year label of the last non-NaN entry of a fetched series:
`da["dayofyear"].values[np.where(np.isfinite(da.values))[0][-1]]`
(core_functions.py line 106), with label = index + 1.  `none` models the
unguarded IndexError when the series has no finite entry at all. -/
def lastFiniteDoy (da : List (Option ℚ)) : Option Int :=
  match (((List.range da.length).filter
      (fun i => (da.getD i none).isSome)).getLast?) with
  | some i => some ((i : Int) + 1)
  | none => none

/-- `add_target_year` (core_functions.py lines 98-111): slice the target year
out of the historical grid (`doy = 365`) or, when the year coordinate lookup
raises KeyError, use the externally fetched current-year series (passed here
as the argument `fetched`, the result of `load_year_current`) with `doy` the
last finite day.  The Python function mutates `ds_base` in place and falls off
the end, returning `None` despite its `-> xr.Dataset` annotation; mutation is
modelled by state passing, so the result is the pair
(Python return value, mutated store).  The outer `none` models the unguarded
IndexError of the last-finite-day lookup on an all-NaN fetched series. -/
def add_target_year (ds_base : Dataset) (year : Int)
    (fetched : List (Option ℚ)) : Option (Option Dataset × Dataset) :=
  if year ∈ ds_base.years then
    let da := ds_base.tas_base.getD (ds_base.years.indexOf year) []
    some (none, { ds_base with
      tas := some da, year := some year, last_doy := some 365 })
  else
    match lastFiniteDoy fetched with
    | some doy => some (none, { ds_base with
        tas := some fetched, year := some year, last_doy := some doy })
    | none => none

/-- One step of a NaN-skipping maximum reduction. -/
def nanMaxStep (acc x : Option ℚ) : Option ℚ :=
  match acc, x with
  | none, v => v
  | some m, none => some m
  | some m, some v => some (max m v)

/-- `max` with `skipna=True`: the maximum of the defined entries of a column,
`none` (NaN) when there is none. -/
def npNanMax (xs : List (Option ℚ)) : Option ℚ :=
  xs.foldl nanMaxStep none

/-- `ds.sel(year=ds["year"] != year)` (plot_functions.py line 254): the
historical rows whose year label differs from the target year. -/
def exclPool (ds : Dataset) (y : Int) : List (List (Option ℚ)) :=
  ((ds.years.zip ds.tas_base).filter (fun p => p.1 != y)).map (fun p => p.2)

/-- The per-day boolean mask of the `quantile == 1` branch of
`mark_exceedance` (plot_functions.py lines 250-257):
`ds["tas"] >= ds["tas_base"].max("year")` after the target year has been
removed from the year axis.  An elementwise comparison involving NaN (missing
target value, or all-NaN comparison column) is `False`. -/
def mark_exceedance_flags (ds : Dataset) : Option (List Bool) := do
  let y ← ds.year
  let t ← ds.tas
  pure ((List.range ds.ndays).map fun d =>
    match t.getD d none, npNanMax (gridCol (exclPool ds y) none d) with
    | some tv, some m => decide (m ≤ tv)
    | _, _ => false)

/-- The maximum over the historical years at day `d` with the target year
excluded from the comparison pool, stated independently of the code path:
filter the (year, row) pairs, collect the defined values at `d`, take
`List.max?`. -/
def specExclMax (ds : Dataset) (y : Int) (d : Nat) : Option ℚ :=
  (((ds.years.zip ds.tas_base).filter (fun p => p.1 != y)).filterMap
    (fun p => p.2.getD d none)).max?

/-- `np.nanmedian`: sort the defined values ascending; odd count takes the
middle element, even count the mean of the two middle elements, empty gives
NaN (`none`). -/
def npMedian (xs : List ℚ) : Option ℚ :=
  let s := List.insertionSort (· ≤ ·) xs
  if s.length = 0 then none
  else if s.length % 2 = 1 then some (s.getD (s.length / 2) 0)
  else some ((s.getD (s.length / 2 - 1) 0 + s.getD (s.length / 2) 0) / 2)

/-- `annotate_last_day` (plot_functions.py lines 291-304), the numeric part:
select the `last_doy` column, compute
`anom = tas - median(tas_base over years)`,
`rank_last = rank.sel(year=year)` and `rank_total = year.size` (the length of
the year axis).  `none` models a KeyError (absent attribute/variable, label
not on an axis) and also the NaN outcome when the target value or the median
is NaN (the source formats NaN text instead of a number in that case). -/
def annotate_last_day (ds : Dataset) : Option (ℚ × Nat × Nat) := do
  let y ← ds.year
  let doyL ← ds.last_doy
  let j ← if 1 ≤ doyL ∧ doyL ≤ (ds.ndays : Int)
          then some (doyL - 1).toNat else none
  let middle ← npMedian ((gridCol ds.tas_base none j).filterMap id)
  let rg ← ds.rank
  let iy ← if y ∈ ds.years then some (ds.years.indexOf y) else none
  let t ← ds.tas
  let tv ← t.getD j none
  pure (tv - middle, (rg.getD iy []).getD j 0, ds.years.length)

/-! ### Concrete stores used as witnesses and counterexamples -/

/-- Two archived years, out-of-sample target 2002 with value 2 lying between
the two archived values. -/
def dsC1 : Dataset :=
  { years := [2000, 2001], tas_base := [[some 1], [some 3]],
    tas := some [some 2], rank := none, ndays := 1, region := "austria",
    year := some 2002, last_doy := some 365, cummean := false }

/-- The result of `calc_rank dsC1`. -/
def dsC1r : Dataset :=
  { years := [2000, 2001, 2002], tas_base := [[some 1], [some 3], [none]],
    tas := some [some 2], rank := some [[3], [1], [2]], ndays := 1,
    region := "austria", year := some 2002, last_doy := some 365,
    cummean := false }

/-- Year coordinate with a gap: the target year 2001 is absent from the year
axis but not greater than its last entry 2002. -/
def dsC3 : Dataset :=
  { years := [2000, 2002], tas_base := [[some 1], [some 2]],
    tas := some [some 3], rank := none, ndays := 1, region := "austria",
    year := some 2001, last_doy := some 1, cummean := false }

/-- In-sample store with an undefined historical cell (year 2001 is NaN at
day 1). -/
def dsC4 : Dataset :=
  { years := [2000, 2001], tas_base := [[some 5], [none]],
    tas := some [some 5], rank := none, ndays := 1, region := "austria",
    year := some 2001, last_doy := some 1, cummean := false }

/-- In-sample store: the target year 2021 is present in the historical grid
with the (stale) value 50, while the target series carries 20; the only other
year has 10. -/
def dsC5 : Dataset :=
  { years := [2000, 2021], tas_base := [[some 10], [some 50]],
    tas := some [some 20], rank := none, ndays := 1, region := "austria",
    year := some 2021, last_doy := some 1, cummean := false }

/-- In-sample store with one year (the target year 2001) undefined at the
last day. -/
def dsC6 : Dataset :=
  { years := [2000, 2001], tas_base := [[some 1], [none]],
    tas := some [some 1], rank := none, ndays := 1, region := "austria",
    year := some 2001, last_doy := some 1, cummean := false }

/-- The result of `calc_rank dsC6`: a store carrying a rank grid. -/
def dsC6r : Dataset :=
  { years := [2000, 2001], tas_base := [[some 1], [none]],
    tas := some [some 1], rank := some [[2], [1]], ndays := 1,
    region := "austria", year := some 2001, last_doy := some 1,
    cummean := false }

/-- A base store whose year axis does not contain the target year 2026. -/
def dsC7 : Dataset :=
  { years := [2023, 2024], tas_base := [[some 1, some 2], [some 3, some 4]],
    tas := none, rank := none, ndays := 2, region := "austria",
    year := none, last_doy := none, cummean := false }

/-- A store with a three-day target series, used for the truncation claims. -/
def dsC8 : Dataset :=
  { years := [2000], tas_base := [[some 1, some 2, some 3]],
    tas := some [some 4, some 5, some 6], rank := none, ndays := 3,
    region := "austria", year := some 2000, last_doy := some 3,
    cummean := false }

/-- A store with `last_doy = 2`: day 3 of the target is already masked. -/
def dsC9 : Dataset :=
  { years := [2000], tas_base := [[some 1, some 2, some 3]],
    tas := some [some 4, some 5, none], rank := none, ndays := 3,
    region := "austria", year := some 2000, last_doy := some 2,
    cummean := false }

/-- The grid ranked by `calc_rank dsC1` (target appended). -/
def gC1 : List (List (Option ℚ)) := [[some 1], [some 3], [some 2]]

/-- The result of `calc_cummean dsC9`. -/
def dsC9r : Dataset :=
  { years := [2000],
    tas_base := [calc_cummean_series [some 1, some 2, some 3]],
    tas := some (maskAfter (calc_cummean_series [some 4, some 5, none]) 2),
    rank := none, ndays := 3, region := "austria", year := some 2000,
    last_doy := some 2, cummean := true }

/-- The store produced by `add_target_year dsC7 2023 []` (in-sample slice). -/
def dsC10r : Dataset :=
  { dsC7 with
    tas := some [some 1, some 2]
    year := some 2023
    last_doy := some 365 }

/-- The result of `calc_rank dsC4` (in-sample, no append). -/
def dsC4r : Dataset := { dsC4 with rank := some [[2], [1]] }

/-! ### Generic lemmas about the argsort model -/

theorem argsort_perm (xs : List (Option ℚ)) :
    List.Perm (argsort xs) (List.range xs.length) :=
  List.perm_insertionSort _ _

theorem argsort_length (xs : List (Option ℚ)) :
    (argsort xs).length = xs.length := by
  simpa using (argsort_perm xs).length_eq

theorem argsort_sorted (xs : List (Option ℚ)) :
    List.Sorted (keyRel xs) (argsort xs) :=
  List.sorted_insertionSort _ _

theorem argsort_perm_self (xs : List (Option ℚ)) :
    List.Perm (argsort xs) (List.range (argsort xs).length) := by
  rw [argsort_length]; exact argsort_perm xs

theorem argsortNat_perm (p : List Nat) :
    List.Perm (argsortNat p) (List.range p.length) :=
  List.perm_insertionSort _ _

theorem argsortNat_length (p : List Nat) :
    (argsortNat p).length = p.length := by
  simpa using (argsortNat_perm p).length_eq

theorem argsortNat_sorted (p : List Nat) :
    List.Sorted (natRel p) (argsortNat p) :=
  List.sorted_insertionSort _ _

theorem map_getD_range (l : List α) (d : α) :
    (List.range l.length).map (fun i => l.getD i d) = l := by
  apply List.ext_getElem (by simp)
  intro i h1 h2
  simp [List.getD_eq_getElem, h2]

theorem map_getD_range_comp (l : List α) (d : α) (f : α → β) :
    (List.range l.length).map (fun i => f (l.getD i d)) = l.map f := by
  have h : (fun i => f (l.getD i d)) = f ∘ (fun i => l.getD i d) := rfl
  rw [h, ← List.map_map, map_getD_range]

theorem getD_map_range (n : Nat) (f : Nat → β) (d : β) (i : Nat) (hi : i < n) :
    ((List.range n).map f).getD i d = f i := by
  rw [List.getD_eq_getElem _ _ (by simp [hi]), List.getElem_map,
    List.getElem_range]

/-- The second argsort reads the first back in ascending order: mapping
`k ↦ p (q k)` over positions recovers `0, …, n-1` when `p` is a permutation
of the index range. -/
theorem argsortNat_map_getD (p : List Nat)
    (hperm : List.Perm p (List.range p.length)) :
    (argsortNat p).map (fun k => p.getD k 0) = List.range p.length := by
  have hsorted : List.Sorted (· ≤ ·)
      ((argsortNat p).map (fun k => p.getD k 0)) :=
    List.Pairwise.map _ (fun _ _ h => h) (argsortNat_sorted p)
  have hperm2 : List.Perm ((argsortNat p).map (fun k => p.getD k 0))
      (List.range p.length) := by
    have h1 := (argsortNat_perm p).map (fun k => p.getD k 0)
    rw [map_getD_range] at h1
    exact h1.trans hperm
  exact List.eq_of_perm_of_sorted hperm2 hsorted (List.sorted_le_range _)

theorem pq_id (p : List Nat) (hperm : List.Perm p (List.range p.length))
    (k : Nat) (hk : k < p.length) :
    p.getD ((argsortNat p).getD k 0) 0 = k := by
  have h := argsortNat_map_getD p hperm
  have hlen : (argsortNat p).length = p.length := argsortNat_length p
  have hk2 : k < ((argsortNat p).map (fun k => p.getD k 0)).length := by
    simp [hlen, hk]
  have h4 : (List.range p.length).getD k 0 = k := by
    rw [List.getD_eq_getElem _ _ (by simp [hk]), List.getElem_range]
  have h5 : ((argsortNat p).map (fun k => p.getD k 0)).getD k 0
      = (List.range p.length).getD k 0 := by rw [h]
  rw [List.getD_eq_getElem _ _ hk2, List.getElem_map, h4] at h5
  rw [List.getD_eq_getElem _ _ (show k < (argsortNat p).length by omega)]
  exact h5

theorem argsortNat_getD_lt (p : List Nat) (k : Nat) (hk : k < p.length) :
    (argsortNat p).getD k 0 < p.length := by
  have hlen := argsortNat_length p
  have hmem : (argsortNat p).getD k 0 ∈ argsortNat p := by
    rw [List.getD_eq_getElem _ _ (by omega)]
    exact List.getElem_mem _
  have h := (argsortNat_perm p).mem_iff.mp hmem
  simpa using h

theorem nodup_getD_inj (p : List Nat)
    (hperm : List.Perm p (List.range p.length))
    {a b : Nat} (ha : a < p.length) (hb : b < p.length)
    (h : p.getD a 0 = p.getD b 0) : a = b := by
  have hnd : p.Nodup := (hperm.nodup_iff).mpr (List.nodup_range _)
  rw [List.getD_eq_getElem _ _ ha, List.getD_eq_getElem _ _ hb] at h
  have h3 : (⟨a, ha⟩ : Fin p.length) = ⟨b, hb⟩ :=
    List.nodup_iff_injective_getElem.mp hnd h
  exact congrArg Fin.val h3

theorem perm_range_surj (p : List Nat)
    (hperm : List.Perm p (List.range p.length))
    (m : Nat) (hm : m < p.length) :
    ∃ a, ∃ _ : a < p.length, p.getD a 0 = m := by
  have hmem : m ∈ p := hperm.mem_iff.mpr (List.mem_range.mpr hm)
  obtain ⟨a, ha, hval⟩ := List.getElem_of_mem hmem
  exact ⟨a, ha, by rw [List.getD_eq_getElem _ _ ha]; exact hval⟩

theorem argsort_key_le (xs : List (Option ℚ)) (a b : Nat)
    (ha : a < (argsort xs).length) (hb : b < (argsort xs).length)
    (hab : a ≤ b) :
    key xs ((argsort xs).getD a 0) ≤ key xs ((argsort xs).getD b 0) := by
  rcases eq_or_lt_of_le hab with rfl | hlt
  · exact le_refl _
  · have h := (argsort_sorted xs).rel_get_of_lt
      (a := ⟨a, ha⟩) (b := ⟨b, hb⟩) (Fin.mk_lt_mk.mpr hlt)
    rw [List.getD_eq_getElem _ _ ha, List.getD_eq_getElem _ _ hb]
    exact h

/-! ### Column-level properties of the double-argsort rank -/

theorem rank_col_eq_map (xs : List (Option ℚ)) :
    (List.range xs.length).map
        (fun i => xs.length - (argsortNat (argsort xs)).getD i 0)
      = (argsortNat (argsort xs)).map (fun v => xs.length - v) := by
  have hlen : (argsortNat (argsort xs)).length = xs.length := by
    rw [argsortNat_length, argsort_length]
  conv_lhs => rw [show List.range xs.length
    = List.range (argsortNat (argsort xs)).length by rw [hlen]]
  exact map_getD_range_comp (argsortNat (argsort xs)) 0
    (fun v => xs.length - v)

/-- The multiset of the per-column ranks is exactly `{1, …, n}`, whatever the
values (defined or not, tied or not): the inner double argsort is always a
permutation of the positions. -/
theorem rank_col_perm (xs : List (Option ℚ)) :
    List.Perm ((List.range xs.length).map
        (fun i => xs.length - (argsortNat (argsort xs)).getD i 0))
      (List.range' 1 xs.length) := by
  rw [rank_col_eq_map]
  have h1 : List.Perm (argsortNat (argsort xs)) (List.range xs.length) := by
    have h := argsortNat_perm (argsort xs)
    rwa [argsort_length] at h
  have h2 := h1.map (fun v => xs.length - v)
  have h3 : (List.range xs.length).map (fun v => xs.length - v)
      = (List.range' 1 xs.length).reverse := by
    rw [List.reverse_range']
    exact List.map_congr_left (fun i _ => by omega)
  rw [h3] at h2
  exact h2.trans (List.reverse_perm _)

/-- In an all-defined column, rank 1 is taken by a cell holding the maximum
value. -/
theorem rank_col_max (xs : List (Option ℚ)) (hne : xs ≠ [])
    (hdef : ∀ x ∈ xs, x ≠ none) :
    ∃ i, ∃ _ : i < xs.length,
      xs.length - (argsortNat (argsort xs)).getD i 0 = 1 ∧
      ∃ v, xs.getD i none = some v ∧ ∀ w, some w ∈ xs → w ≤ v := by
  have hN : 0 < xs.length := List.length_pos.mpr hne
  have hplen : (argsort xs).length = xs.length := argsort_length xs
  have hpperm : List.Perm (argsort xs)
      (List.range (argsort xs).length) := argsort_perm_self xs
  have hiN : (argsort xs).getD (xs.length - 1) 0 < xs.length := by
    have hmem : (argsort xs).getD (xs.length - 1) 0 ∈ argsort xs := by
      rw [List.getD_eq_getElem _ _
        (show xs.length - 1 < (argsort xs).length by omega)]
      exact List.getElem_mem _
    have h := (argsort_perm xs).mem_iff.mp hmem
    simpa using h
  refine ⟨(argsort xs).getD (xs.length - 1) 0, hiN, ?_, ?_⟩
  · have h1 : (argsort xs).getD
        ((argsortNat (argsort xs)).getD
          ((argsort xs).getD (xs.length - 1) 0) 0) 0
        = (argsort xs).getD (xs.length - 1) 0 :=
      pq_id (argsort xs) hpperm _ (by omega)
    have hqi : (argsortNat (argsort xs)).getD
        ((argsort xs).getD (xs.length - 1) 0) 0 < (argsort xs).length :=
      argsortNat_getD_lt (argsort xs) _ (by omega)
    have h2 : (argsortNat (argsort xs)).getD
        ((argsort xs).getD (xs.length - 1) 0) 0 = xs.length - 1 :=
      nodup_getD_inj (argsort xs) hpperm hqi (by omega) h1
    omega
  · have hvi : xs.getD ((argsort xs).getD (xs.length - 1) 0) none ≠ none := by
      apply hdef
      rw [List.getD_eq_getElem _ _ hiN]
      exact List.getElem_mem _
    obtain ⟨v, hv⟩ := Option.ne_none_iff_exists'.mp hvi
    refine ⟨v, hv, ?_⟩
    intro w hw
    obtain ⟨m, hm, hmv⟩ := List.getElem_of_mem hw
    obtain ⟨a, haN, hpa⟩ := perm_range_surj (argsort xs) hpperm m (by omega)
    have hkey := argsort_key_le xs a ((argsort xs).length - 1)
      (by omega) (by omega) (by omega)
    rw [hpa, show (argsort xs).length - 1 = xs.length - 1 by omega] at hkey
    have hkm : key xs m = (w : WithTop ℚ) := by
      have hgd : xs.getD m none = some w := by
        rw [List.getD_eq_getElem _ _ hm]; exact hmv
      unfold key; rw [hgd]
    have hki : key xs ((argsort xs).getD (xs.length - 1) 0)
        = (v : WithTop ℚ) := by unfold key; rw [hv]
    rw [hkm, hki] at hkey
    exact WithTop.coe_le_coe.mp hkey

/-- An undefined (NaN) cell always receives a strictly smaller (better) rank
number than any defined cell of the same column: NaN sorts last in the
ascending argsort and the inversion `n - r` then sends it to the top. -/
theorem rank_col_none_lt (xs : List (Option ℚ)) (i k : Nat)
    (hi : i < xs.length) (hk : k < xs.length)
    (hni : xs.getD i none = none) (hwk : xs.getD k none ≠ none) :
    xs.length - (argsortNat (argsort xs)).getD i 0
      < xs.length - (argsortNat (argsort xs)).getD k 0 := by
  have hplen : (argsort xs).length = xs.length := argsort_length xs
  have hpperm : List.Perm (argsort xs)
      (List.range (argsort xs).length) := argsort_perm_self xs
  have hqi : (argsortNat (argsort xs)).getD i 0 < (argsort xs).length :=
    argsortNat_getD_lt (argsort xs) i (by omega)
  have hqk : (argsortNat (argsort xs)).getD k 0 < (argsort xs).length :=
    argsortNat_getD_lt (argsort xs) k (by omega)
  have hpi : (argsort xs).getD ((argsortNat (argsort xs)).getD i 0) 0 = i :=
    pq_id (argsort xs) hpperm i (by omega)
  have hpk : (argsort xs).getD ((argsortNat (argsort xs)).getD k 0) 0 = k :=
    pq_id (argsort xs) hpperm k (by omega)
  have hik : i ≠ k := fun h => hwk (h ▸ hni)
  have hqik : (argsortNat (argsort xs)).getD i 0
      ≠ (argsortNat (argsort xs)).getD k 0 :=
    fun h => hik (by rw [← hpi, ← hpk, h])
  have hlt : (argsortNat (argsort xs)).getD k 0
      < (argsortNat (argsort xs)).getD i 0 := by
    by_contra hcon
    push_neg at hcon
    have hqik2 : (argsortNat (argsort xs)).getD i 0
        < (argsortNat (argsort xs)).getD k 0 := lt_of_le_of_ne hcon hqik
    have hkey := argsort_key_le xs
      ((argsortNat (argsort xs)).getD i 0)
      ((argsortNat (argsort xs)).getD k 0)
      (by omega) (by omega) (le_of_lt hqik2)
    rw [hpi, hpk] at hkey
    obtain ⟨v, hv⟩ := Option.ne_none_iff_exists'.mp hwk
    rw [show key xs i = ⊤ by unfold key; rw [hni],
      show key xs k = (v : WithTop ℚ) by unfold key; rw [hv]] at hkey
    exact absurd (WithTop.top_le_iff.mp hkey) (WithTop.coe_ne_top)
  omega

/-- Column `j` of the rank grid, as a function of the value column. -/
theorem np_rank_col (ndays : Nat) (g : List (List (Option ℚ))) (j : Nat)
    (hj : j < ndays) :
    gridCol (np_rank ndays g) 0 j
      = (List.range g.length).map
          (fun i => g.length
            - (argsortNat (argsort (gridCol g none j))).getD i 0) := by
  unfold np_rank gridCol
  rw [List.map_map]
  refine List.map_congr_left (fun i _ => ?_)
  simp only [Function.comp_apply]
  rw [getD_map_range ndays _ 0 j hj]

/-- The rank variable merged into the dataset by `calc_rank` is the double
argsort of the (possibly target-extended) grid. -/
theorem calc_rank_rank_eq (ds ds2 : Dataset) (g : List (List (Option ℚ)))
    (hg : rank_input ds = some g) (hcr : calc_rank ds = some ds2) :
    ds2.rank = some (np_rank ds.ndays g) := by
  cases hy : ds.year with
  | none => rw [rank_input, hy] at hg; simp at hg
  | some y =>
    cases hyl : ds.years.getLast? with
    | none => rw [rank_input, hy, hyl] at hg; simp at hg
    | some yl =>
      rw [calc_rank, hy, hyl] at hcr
      simp only [Option.bind_eq_bind, Option.some_bind, hg] at hcr
      obtain rfl := Option.some.inj hcr
      rfl


/-! ### Claim theorems -/

/-- C1: for every input grid in which, at a fixed day-of-year, all ranked
year rows (the K historical years, plus the appended out-of-sample target,
K+1 rows, when `rank_input` appends it) have defined values, the rank grid
returned by `calc_rank` assigns within that day-of-year column each integer
from 1 to the number of ranked rows exactly once, and rank 1 goes to a cell
holding the maximum value of that column. -/
theorem calc_rank_column_perm_max (ds ds2 : Dataset)
    (g : List (List (Option ℚ))) (j : Nat)
    (hg : rank_input ds = some g) (hcr : calc_rank ds = some ds2)
    (hj : j < ds.ndays) (hne : g ≠ [])
    (hdef : ∀ x ∈ gridCol g none j, x ≠ none) :
    ds2.rank = some (np_rank ds.ndays g) ∧
    List.Perm (gridCol (np_rank ds.ndays g) 0 j) (List.range' 1 g.length) ∧
    ∃ i, ∃ _ : i < g.length,
      (gridCol (np_rank ds.ndays g) 0 j).getD i 0 = 1 ∧
      ∃ v, (gridCol g none j).getD i none = some v ∧
        ∀ w, some w ∈ gridCol g none j → w ≤ v := by
  have hcol : (gridCol g none j).length = g.length := by simp [gridCol]
  refine ⟨calc_rank_rank_eq ds ds2 g hg hcr, ?_, ?_⟩
  · rw [np_rank_col ds.ndays g j hj]
    have h := rank_col_perm (gridCol g none j)
    rwa [hcol] at h
  · obtain ⟨i, hiN, hrank, v, hv, hmax⟩ :=
      rank_col_max (gridCol g none j) (by simp [gridCol, hne]) hdef
    refine ⟨i, by omega, ?_, v, hv, hmax⟩
    rw [np_rank_col ds.ndays g j hj,
      getD_map_range g.length _ 0 i (by omega)]
    rw [hcol] at hrank
    exact hrank

/-- Witness for C1: the out-of-sample store `dsC1` (historical values 1 and 3,
target value 2 appended) gets rank column (3, 1, 2), a permutation of 1..3
with rank 1 on the maximum 3; this is the ranking example of the spec. -/
theorem calc_rank_column_perm_max_witness :
    (rank_input dsC1 = some gC1 ∧ calc_rank dsC1 = some dsC1r
      ∧ (0 : Nat) < dsC1.ndays ∧ gC1 ≠ []
      ∧ ∀ x ∈ gridCol gC1 none 0, x ≠ none) ∧
    (dsC1r.rank = some (np_rank dsC1.ndays gC1) ∧
     List.Perm (gridCol (np_rank dsC1.ndays gC1) 0 0)
       (List.range' 1 gC1.length) ∧
     ∃ i, ∃ _ : i < gC1.length,
       (gridCol (np_rank dsC1.ndays gC1) 0 0).getD i 0 = 1 ∧
       ∃ v, (gridCol gC1 none 0).getD i none = some v ∧
         ∀ w, some w ∈ gridCol gC1 none 0 → w ≤ v) :=
  ⟨⟨by decide, by decide, by decide, by decide, by decide⟩,
   calc_rank_column_perm_max dsC1 dsC1r gC1 0 (by decide) (by decide)
     (by decide) (by decide) (by decide)⟩

/-- C3, corrected: `calc_rank` appends the target series as an extra year row
iff the target year is greater than the last entry of the year coordinate
(`year > ds["year"].values[-1]`) — not iff the target year is absent from the
year axis. -/
theorem calc_rank_append_iff (ds ds2 : Dataset) (y yl : Int)
    (t : List (Option ℚ))
    (hy : ds.year = some y) (hyl : ds.years.getLast? = some yl)
    (ht : ds.tas = some t) (hcr : calc_rank ds = some ds2) :
    ((rank_input ds = some (ds.tas_base ++ [t])
        ∧ ds2.years = ds.years ++ [y]) ↔ yl < y)
    ∧ ((rank_input ds = some ds.tas_base ∧ ds2.years = ds.years)
        ↔ ¬ yl < y) := by
  have hneq : ds.years ++ [y] ≠ ds.years := by
    intro h
    have h2 := congrArg List.length h
    simp at h2
  have hneq2 : ds.tas_base ++ [t] ≠ ds.tas_base := by
    intro h
    have h2 := congrArg List.length h
    simp at h2
  by_cases hlt : yl < y
  · have hg : rank_input ds = some (ds.tas_base ++ [t]) := by
      rw [rank_input, hy, hyl]
      simp [hlt, ht]
    rw [calc_rank, hy, hyl] at hcr
    simp only [Option.bind_eq_bind, Option.some_bind, hg] at hcr
    obtain rfl := Option.some.inj hcr
    have hyears : ({ ds with
        years := if yl < y then ds.years ++ [y] else ds.years,
        tas_base := if yl < y then
          ds.tas_base ++ [List.replicate ds.ndays none] else ds.tas_base,
        rank := some (np_rank ds.ndays (ds.tas_base ++ [t])) :
          Dataset }).years = ds.years ++ [y] := by
      show (if yl < y then ds.years ++ [y] else ds.years) = ds.years ++ [y]
      rw [if_pos hlt]
    constructor
    · exact ⟨fun _ => hlt, fun _ => ⟨hg, hyears⟩⟩
    · constructor
      · rintro ⟨h1, _⟩
        rw [hg] at h1
        exact absurd (Option.some.inj h1) hneq2
      · intro h
        exact absurd hlt h
  · have hg : rank_input ds = some ds.tas_base := by
      rw [rank_input, hy, hyl]
      simp [hlt]
    rw [calc_rank, hy, hyl] at hcr
    simp only [Option.bind_eq_bind, Option.some_bind, hg] at hcr
    obtain rfl := Option.some.inj hcr
    have hyears : ({ ds with
        years := if yl < y then ds.years ++ [y] else ds.years,
        tas_base := if yl < y then
          ds.tas_base ++ [List.replicate ds.ndays none] else ds.tas_base,
        rank := some (np_rank ds.ndays ds.tas_base) :
          Dataset }).years = ds.years := by
      show (if yl < y then ds.years ++ [y] else ds.years) = ds.years
      rw [if_neg hlt]
    constructor
    · constructor
      · rintro ⟨h1, _⟩
        rw [hg] at h1
        exact absurd (Option.some.inj h1).symm hneq2
      · intro h
        exact absurd h hlt
    · exact ⟨fun _ => hlt, fun _ => ⟨hg, hyears⟩⟩

/-- C3 as stated is false: at `dsC3` the target year 2001 is not present on
the year axis `[2000, 2002]`, yet `calc_rank` does not append it (the output
year axis is unchanged), because 2001 is not greater than the last entry
2002. -/
theorem calc_rank_append_iff_cex :
    (2001 : Int) ∉ dsC3.years ∧
    Option.map Dataset.years (calc_rank dsC3) = some [2000, 2002] := by
  decide

/-- Witness for the corrected C3 at the concrete gap store `dsC3`. -/
theorem calc_rank_append_iff_witness :
    (dsC3.year = some 2001 ∧ dsC3.years.getLast? = some 2002
      ∧ dsC3.tas = some [some 3]
      ∧ calc_rank dsC3 = some { dsC3 with
          rank := some (np_rank dsC3.ndays dsC3.tas_base) }) ∧
    (((rank_input dsC3 = some (dsC3.tas_base ++ [[some 3]])
        ∧ ({ dsC3 with
            rank := some (np_rank dsC3.ndays dsC3.tas_base) }).years
          = dsC3.years ++ [2001]) ↔ (2002 : Int) < 2001)
     ∧ ((rank_input dsC3 = some dsC3.tas_base
        ∧ ({ dsC3 with
            rank := some (np_rank dsC3.ndays dsC3.tas_base) }).years
          = dsC3.years) ↔ ¬ (2002 : Int) < 2001)) :=
  ⟨⟨by decide, by decide, by decide, by decide⟩,
   calc_rank_append_iff dsC3 _ 2001 2002 [some 3] (by decide) (by decide)
     (by decide) (by decide)⟩

/-- C4, corrected: in the rank grid produced by `calc_rank`, undefined
(missing) cells sort to the TOP of their day-of-year column, not the bottom:
every undefined cell receives a rank number strictly smaller than the rank of
every defined cell in that column. -/
theorem calc_rank_none_top (ds ds2 : Dataset) (g : List (List (Option ℚ)))
    (j i k : Nat)
    (hg : rank_input ds = some g) (hcr : calc_rank ds = some ds2)
    (hj : j < ds.ndays) (hi : i < g.length) (hk : k < g.length)
    (hni : (gridCol g none j).getD i none = none)
    (hwk : (gridCol g none j).getD k none ≠ none) :
    ds2.rank = some (np_rank ds.ndays g) ∧
    (gridCol (np_rank ds.ndays g) 0 j).getD i 0
      < (gridCol (np_rank ds.ndays g) 0 j).getD k 0 := by
  have hcol : (gridCol g none j).length = g.length := by simp [gridCol]
  refine ⟨calc_rank_rank_eq ds ds2 g hg hcr, ?_⟩
  rw [np_rank_col ds.ndays g j hj,
    getD_map_range g.length _ 0 i hi, getD_map_range g.length _ 0 k hk]
  have h := rank_col_none_lt (gridCol g none j) i k (by omega) (by omega)
    hni hwk
  rwa [hcol] at h

/-- C4 as stated is false: at `dsC4` the undefined cell (year 2001, NaN at
day 1) receives rank 1 while the defined cell (value 5) receives rank 2 —
the undefined cell claims the best rank position, ahead of the real value. -/
theorem calc_rank_none_top_cex :
    (dsC4.tas_base.getD 0 []).getD 0 none = some 5 ∧
    (dsC4.tas_base.getD 1 []).getD 0 none = none ∧
    Option.map Dataset.rank (calc_rank dsC4) = some (some [[2], [1]]) := by
  decide

/-- Witness for the corrected C4 at the concrete store `dsC4`. -/
theorem calc_rank_none_top_witness :
    (rank_input dsC4 = some [[some 5], [none]]
      ∧ calc_rank dsC4 = some dsC4r ∧ (0 : Nat) < dsC4.ndays
      ∧ (1 : Nat) < ([[some (5:ℚ)], [none]] : List (List (Option ℚ))).length
      ∧ (0 : Nat) < ([[some (5:ℚ)], [none]] : List (List (Option ℚ))).length
      ∧ (gridCol [[some (5:ℚ)], [none]] none 0).getD 1 none = none
      ∧ (gridCol [[some (5:ℚ)], [none]] none 0).getD 0 none ≠ none) ∧
    (dsC4r.rank = some (np_rank dsC4.ndays [[some 5], [none]]) ∧
     (gridCol (np_rank dsC4.ndays [[some 5], [none]]) 0 0).getD 1 0
       < (gridCol (np_rank dsC4.ndays [[some 5], [none]]) 0 0).getD 0 0) :=
  ⟨⟨by decide, by decide, by decide, by decide, by decide, by decide,
    by decide⟩,
   calc_rank_none_top dsC4 dsC4r [[some 5], [none]] 0 1 0 (by decide)
     (by decide) (by decide) (by decide) (by decide) (by decide) (by decide)⟩

/-! ### Cumulative mean and truncation -/

theorem cumsumSkipna_length (acc : ℚ) (xs : List (Option ℚ)) :
    (cumsumSkipna acc xs).length = xs.length := by
  induction xs generalizing acc with
  | nil => rfl
  | cons x xs ih => simp [cumsumSkipna, ih]

theorem cumsumSkipna_getD (xs : List (Option ℚ)) (acc : ℚ) (d : Nat)
    (hd : d < xs.length) :
    (cumsumSkipna acc xs).getD d 0
      = acc + ((xs.take (d + 1)).filterMap id).sum := by
  induction xs generalizing acc d with
  | nil => simp at hd
  | cons x xs ih =>
    cases d with
    | zero =>
      cases x with
      | none => simp [cumsumSkipna]
      | some v => simp [cumsumSkipna]
    | succ d =>
      have hd2 : d < xs.length := by simpa using hd
      have hgd : (cumsumSkipna acc (x :: xs)).getD (d + 1) 0
          = (cumsumSkipna (acc + x.getD 0) xs).getD d 0 := rfl
      rw [hgd, ih (acc + x.getD 0) d hd2, List.take_succ_cons,
        List.filterMap_cons]
      cases x with
      | none => simp
      | some v => simp [add_assoc]

theorem maskAfter_getD_none (t : List (Option ℚ)) (doy : Int) (d : Nat)
    (hd : d < t.length) (hgt : doy < Int.ofNat d + 1) :
    (maskAfter t doy).getD d none = none := by
  rw [maskAfter, getD_map_range t.length _ none d hd, if_neg (by omega)]

/-- C2, corrected: `calc_cummean` replaces the value at day-of-year `d` by
the sum of the DEFINED values among days `1..d` divided by `d` — the skip-NaN
cumulative sum treats an undefined day as 0 and the result is always defined.
When all days `1..d` are defined this is the running mean of the claim
(e.g. (2, 4, 6) becomes (2, 3, 4)); but an undefined input day does NOT make
the running mean at that day or later days undefined. -/
theorem calc_cummean_series_getD (xs : List (Option ℚ)) (d : Nat)
    (hd : d < xs.length) :
    (calc_cummean_series xs).getD d none
      = some (((xs.take (d + 1)).filterMap id).sum / ((d : ℚ) + 1)) := by
  rw [calc_cummean_series, getD_map_range xs.length _ none d hd,
    cumsumSkipna_getD xs 0 d hd, zero_add]

/-- Witness for the corrected C2: day 2 (index 1) of the all-defined series
(2, 4, 6) is the running mean (2 + 4) / 2 = 3. -/
theorem calc_cummean_series_getD_witness :
    (1 : Nat) < ([some 2, some 4, some 6] : List (Option ℚ)).length ∧
    (calc_cummean_series [some 2, some 4, some 6]).getD 1 none
      = some (((([some 2, some 4, some 6] : List (Option ℚ)).take
          (1 + 1)).filterMap id).sum / (((1 : Nat) : ℚ) + 1)) :=
  ⟨by decide, calc_cummean_series_getD [some 2, some 4, some 6] 1 (by decide)⟩

/-- C2 as stated is false on gaps: for input (2, NaN, 6) the code yields the
DEFINED values (2, 1, 8/3) at days 1, 2, 3 — the skip-NaN cumulative sum
averages past the gap treating it as 0 — whereas the claim requires days 2
and 3 to be undefined. -/
theorem calc_cummean_series_gap_cex :
    calc_cummean_series [some 2, none, some 6]
      = [some 2, some 1, some (8 / 3)] ∧
    ((calc_cummean_series [some 2, none, some 6]).getD 1 none).isSome
      = true ∧
    ((calc_cummean_series [some 2, none, some 6]).getD 2 none).isSome
      = true :=
  ⟨by norm_num [calc_cummean_series, cumsumSkipna, List.range_succ],
   by decide, by decide⟩

/-- C8, corrected: `set_last_doy` performs no range validation at all: for
EVERY integer `doy` — inside or outside [1, 366] — it succeeds on a store
carrying a target series, masking the target past `doy` and recording `doy`
as `last_doy`; out-of-range values are silently accepted, no InvalidArgument
error exists in the code. -/
theorem set_last_doy_no_validation (ds : Dataset) (t : List (Option ℚ))
    (doy : Int) (ht : ds.tas = some t) :
    set_last_doy ds doy
      = some { ds with
          tas := some (maskAfter t doy)
          last_doy := some doy } := by
  rw [set_last_doy, ht]
  rfl

/-- Witness for the corrected C8 at the out-of-range day 367: truncation
succeeds anyway. -/
theorem set_last_doy_no_validation_witness :
    dsC8.tas = some [some 4, some 5, some 6] ∧
    set_last_doy dsC8 367
      = some { dsC8 with
          tas := some (maskAfter [some 4, some 5, some 6] 367)
          last_doy := some 367 } :=
  ⟨by decide,
   set_last_doy_no_validation dsC8 [some 4, some 5, some 6] 367 (by decide)⟩

/-- C8 as stated is false: the out-of-range days 367 and 0 are not rejected —
`set_last_doy` succeeds on both and records the out-of-range value. -/
theorem set_last_doy_no_validation_cex :
    (set_last_doy dsC8 367).isSome = true ∧
    (set_last_doy dsC8 0).isSome = true ∧
    Option.map Dataset.last_doy (set_last_doy dsC8 367)
      = some (some 367) := by
  decide

/-- C9: the result of `calc_cummean` preserves the region and year
attributes, keeps the `last_doy` stored before the transform, sets the
cummean flag, and its target series is the cumulative-mean series
re-truncated at that stored `last_doy` (every day past it is undefined):
truncation state survives the transform. -/
theorem calc_cummean_frame (ds ds2 : Dataset) (L : Int)
    (hL : ds.last_doy = some L) (h : calc_cummean ds = some ds2) :
    ds2.region = ds.region ∧ ds2.year = ds.year ∧ ds2.last_doy = some L ∧
    ds2.cummean = true ∧
    ∃ t, ds.tas = some t ∧
      ds2.tas = some (maskAfter (calc_cummean_series t) L) ∧
      ∀ d, d < (calc_cummean_series t).length → L < Int.ofNat d + 1 →
        (maskAfter (calc_cummean_series t) L).getD d none = none := by
  cases ht : ds.tas with
  | none =>
    rw [calc_cummean, hL] at h
    simp [set_last_doy, ht] at h
  | some t =>
    rw [calc_cummean, hL] at h
    simp only [Option.bind_eq_bind, Option.some_bind, set_last_doy, ht,
      Option.map_some'] at h
    obtain rfl := Option.some.inj h
    exact ⟨rfl, rfl, hL ▸ rfl, rfl, t, rfl,
      rfl, fun d hd hgt => maskAfter_getD_none _ L d hd hgt⟩

/-! ### Exceedance classification, last-day summary, target extraction -/

theorem npNanMax_go (l : List (Option ℚ)) (m : ℚ) :
    l.foldl nanMaxStep (some m) = some ((l.filterMap id).foldl max m) := by
  induction l generalizing m with
  | nil => rfl
  | cons x xs ih =>
    cases x with
    | none => simpa [nanMaxStep] using ih m
    | some v => simpa [nanMaxStep] using ih (max m v)

theorem npNanMax_eq (l : List (Option ℚ)) :
    npNanMax l = (l.filterMap id).max? := by
  induction l with
  | nil => rfl
  | cons x xs ih =>
    cases x with
    | none => simpa [npNanMax, nanMaxStep, List.filterMap_cons] using ih
    | some v =>
      simp only [npNanMax, List.foldl_cons, nanMaxStep,
        List.filterMap_cons, List.max?]
      exact npNanMax_go xs v

theorem specExclMax_eq (ds : Dataset) (y : Int) (d : Nat) :
    npNanMax (gridCol (exclPool ds y) none d) = specExclMax ds y d := by
  rw [npNanMax_eq, specExclMax, exclPool, gridCol, List.map_map,
    List.filterMap_map]
  rfl

/-- C5: with threshold 1, the exceedance classification flags day `d` iff the
target value at `d` is defined and at least the maximum over the historical
years at `d` with the target year itself excluded from the comparison pool;
the exclusion applies whether or not the target year appears on the year
axis, so it holds in particular when the target year is present in the
historical grid. -/
theorem mark_exceedance_record_iff (ds : Dataset) (y : Int)
    (t : List (Option ℚ)) (flags : List Bool) (d : Nat)
    (hy : ds.year = some y) (ht : ds.tas = some t)
    (hf : mark_exceedance_flags ds = some flags) (hd : d < ds.ndays) :
    flags.getD d false = true ↔
      ∃ tv m, t.getD d none = some tv ∧ specExclMax ds y d = some m
        ∧ m ≤ tv := by
  rw [mark_exceedance_flags, hy, ht] at hf
  obtain rfl := Option.some.inj hf
  rw [getD_map_range ds.ndays _ false d hd, ← specExclMax_eq ds y d]
  cases htv : t.getD d none with
  | none => simp
  | some tv =>
    cases hm : npNanMax (gridCol (exclPool ds y) none d) with
    | none => simp
    | some m => simp

/-- Witness for C5 at the in-sample store `dsC5`: the target year 2021 is
present on the year axis with the stale historical value 50; with the target
year excluded the pool maximum is 10, and the target value 20 is flagged as a
record even though it is below its own stale row. -/
theorem mark_exceedance_record_iff_witness :
    (dsC5.year = some 2021 ∧ dsC5.tas = some [some 20]
      ∧ mark_exceedance_flags dsC5 = some [true] ∧ (0 : Nat) < dsC5.ndays
      ∧ (2021 : Int) ∈ dsC5.years ∧ specExclMax dsC5 2021 0 = some 10) ∧
    (([true] : List Bool).getD 0 false = true ↔
      ∃ tv m, ([some (20:ℚ)] : List (Option ℚ)).getD 0 none = some tv
        ∧ specExclMax dsC5 2021 0 = some m ∧ m ≤ tv) :=
  ⟨⟨by decide, by decide, by decide, by decide, by decide, by decide⟩,
   mark_exceedance_record_iff dsC5 2021 [some 20] [true] 0 (by decide)
     (by decide) (by decide) (by decide)⟩

/-- Witness for C9 at the concrete store `dsC9` (`last_doy = 2`): the
cumulative-mean result keeps region, year and `last_doy = 2`, sets the
cummean flag, and its target is masked past day 2. -/
theorem calc_cummean_frame_witness :
    (dsC9.last_doy = some 2 ∧ calc_cummean dsC9 = some dsC9r) ∧
    (dsC9r.region = dsC9.region ∧ dsC9r.year = dsC9.year
      ∧ dsC9r.last_doy = some 2 ∧ dsC9r.cummean = true
      ∧ ∃ t, dsC9.tas = some t
        ∧ dsC9r.tas = some (maskAfter (calc_cummean_series t) 2)
        ∧ ∀ d, d < (calc_cummean_series t).length
            → (2 : Int) < Int.ofNat d + 1
            → (maskAfter (calc_cummean_series t) 2).getD d none = none) :=
  ⟨⟨by decide, by rfl⟩, calc_cummean_frame dsC9 dsC9r 2 (by decide) (by rfl)⟩

/-- C6, corrected: the last-day summary (`annotate_last_day`) returns
anomaly = target value at the chosen day minus the median of the defined
historical values at that day-of-year, rank = the rank-grid entry of the
target year at that day, and total = the length of the year axis — all year
rows, whether or not their value at the day is defined — not the number of
years with a defined value there. -/
theorem annotate_last_day_eq (ds : Dataset) (y L : Int)
    (rg : List (List Nat)) (t : List (Option ℚ)) (m tv : ℚ)
    (hy : ds.year = some y) (hL : ds.last_doy = some L)
    (hrange : 1 ≤ L ∧ L ≤ (ds.ndays : Int))
    (hmed : npMedian
      ((gridCol ds.tas_base none (L - 1).toNat).filterMap id) = some m)
    (hrg : ds.rank = some rg) (hmem : y ∈ ds.years)
    (ht : ds.tas = some t) (htv : t.getD (L - 1).toNat none = some tv) :
    annotate_last_day ds
      = some (tv - m,
          (rg.getD (ds.years.indexOf y) []).getD (L - 1).toNat 0,
          ds.years.length) := by
  rw [annotate_last_day, hy, hL]
  simp only [Option.bind_eq_bind, Option.some_bind, if_pos hrange, hmed,
    hrg, if_pos hmem, ht, htv]
  rfl

/-- Witness for the corrected C6 at `dsC6r`: anomaly 1 - 1, rank-grid entry
for year 2001 at day 1, and total 2 = length of the year axis. -/
theorem annotate_last_day_eq_witness :
    (dsC6r.year = some 2001 ∧ dsC6r.last_doy = some 1
      ∧ ((1 : Int) ≤ 1 ∧ (1 : Int) ≤ (dsC6r.ndays : Int))
      ∧ npMedian ((gridCol dsC6r.tas_base none
          ((1 : Int) - 1).toNat).filterMap id) = some 1
      ∧ dsC6r.rank = some [[2], [1]] ∧ (2001 : Int) ∈ dsC6r.years
      ∧ dsC6r.tas = some [some 1]
      ∧ ([some (1:ℚ)] : List (Option ℚ)).getD ((1 : Int) - 1).toNat none
          = some 1) ∧
    annotate_last_day dsC6r
      = some ((1 : ℚ) - 1,
          (([[2], [1]] : List (List Nat)).getD
            (dsC6r.years.indexOf 2001) []).getD ((1 : Int) - 1).toNat 0,
          dsC6r.years.length) :=
  ⟨⟨by decide, by decide, by decide, by decide, by decide, by decide,
    by decide, by decide⟩,
   annotate_last_day_eq dsC6r 2001 1 [[2], [1]] [some 1] 1 1 (by decide)
     (by decide) (by decide) (by decide) (by decide) (by decide) (by decide)
     (by decide)⟩

/-- C6 as stated is false for the `total` component: at `dsC6` (two years on
the axis, the target year 2001 undefined at the day), the summary reports
total = 2 — the length of the year axis — while only 1 year has a defined
value at that day-of-year. -/
theorem annotate_last_day_total_cex :
    Option.map (fun r => r.2) ((calc_rank dsC6).bind annotate_last_day)
      = some (1, 2) ∧
    ((gridCol dsC6.tas_base none 0).filterMap id).length = 1 := by
  decide

/-- C7 (code bug): when the target year is absent from the historical grid
and the externally fetched current-year series has no defined value at all,
the last-valid-day lookup runs on an empty index set: the model returns
`none`, i.e. the Python code dies with an unguarded IndexError at
`np.where(np.isfinite(da.values))[0][-1]` instead of failing with a
DataUnavailable error kind (no such error kind exists anywhere in the
code). -/
theorem add_target_year_all_nan_crash :
    (2026 : Int) ∉ dsC7.years ∧
    lastFiniteDoy [none, none, none] = none ∧
    add_target_year dsC7 2026 [none, none, none] = none := by
  decide

/-- C10: `add_target_year` mutates the store passed to it (in-place mutation
is modelled by state passing): whenever it does not crash, the Python return
value — the first component — is `none` (the function returns None despite
its declared Dataset return type), and the updated store is the same store
with only the target variable added and the year and last_doy attributes
set; every other field is unchanged and no new store is created. -/
theorem add_target_year_mutates (ds : Dataset) (y : Int)
    (fetched : List (Option ℚ)) (r : Option Dataset) (ds2 : Dataset)
    (h : add_target_year ds y fetched = some (r, ds2)) :
    r = none ∧ ds2.years = ds.years ∧ ds2.tas_base = ds.tas_base ∧
    ds2.rank = ds.rank ∧ ds2.region = ds.region ∧
    ds2.cummean = ds.cummean ∧ ds2.ndays = ds.ndays ∧
    ds2.year = some y ∧ ds2.tas.isSome = true ∧
    ds2.last_doy.isSome = true := by
  rw [add_target_year] at h
  by_cases hmem : y ∈ ds.years
  · rw [if_pos hmem] at h
    obtain ⟨h1, h2⟩ := Prod.ext_iff.mp (Option.some.inj h)
    obtain rfl := h1.symm
    obtain rfl := h2.symm
    exact ⟨rfl, rfl, rfl, rfl, rfl, rfl, rfl, rfl, rfl, rfl⟩
  · rw [if_neg hmem] at h
    cases hlf : lastFiniteDoy fetched with
    | none => rw [hlf] at h; cases h
    | some doy =>
      rw [hlf] at h
      obtain ⟨h1, h2⟩ := Prod.ext_iff.mp (Option.some.inj h)
      obtain rfl := h1.symm
      obtain rfl := h2.symm
      exact ⟨rfl, rfl, rfl, rfl, rfl, rfl, rfl, rfl, rfl, rfl⟩

/-- Witness for C10 at the in-sample extraction
`add_target_year dsC7 2023 []`. -/
theorem add_target_year_mutates_witness :
    add_target_year dsC7 2023 [] = some (none, dsC10r) ∧
    ((none : Option Dataset) = none ∧ dsC10r.years = dsC7.years
      ∧ dsC10r.tas_base = dsC7.tas_base ∧ dsC10r.rank = dsC7.rank
      ∧ dsC10r.region = dsC7.region ∧ dsC10r.cummean = dsC7.cummean
      ∧ dsC10r.ndays = dsC7.ndays ∧ dsC10r.year = some 2023
      ∧ dsC10r.tas.isSome = true ∧ dsC10r.last_doy.isSome = true) :=
  ⟨by decide, add_target_year_mutates dsC7 2023 [] none dsC10r (by decide)⟩
